import Mathlib

/-!
Verification of the PracticeFusion integration adapter
(`practice_fusion_integrations.py`, `models/models.py`) against its
natural-language specification.

The Python code is shallowly embedded: every remote call is made explicit
as a `NetCall` value in an emitted trace, remote responses are supplied as
an explicit environment, and every raised exception (`HTTPException`,
`IntegrationAPIError`) becomes an error value.  Datetimes are modelled as
integers (minutes), since the only arithmetic the code performs on them is
`timedelta(minutes=30)`.
-/

namespace PF

/-- A minimal JSON value model, used for the transport shim
(`_handle_response`), whose behaviour depends on body parse success and on
the `error.message` / `error.code` fields of the parsed body. -/
inductive JVal where
  | null
  | jbool (b : Bool)
  | jstr (s : String)
  | jnum (n : Int)
  | jarr (xs : List JVal)
  | jobj (fields : List (String × JVal))

/-- Association-list lookup for JSON object fields (first match wins, as in
a Python dict where keys are unique). -/
def jlookup : List (String × JVal) → String → Option JVal
  | [], _ => none
  | (k, v) :: rest, key => if k == key then some v else jlookup rest key

/-- The apostrophe character, used by the Python string-`repr` model. -/
def singleQuoteChar : Char := Char.ofNat 39

/-- The double-quote character, used by the Python string-`repr` model. -/
def doubleQuoteChar : Char := Char.ofNat 34

/-- Lower-case hexadecimal digit. -/
def hexDigit (n : Nat) : Char :=
  if n < 10 then Char.ofNat (48 + n) else Char.ofNat (87 + (n - 10))

/-- Two lower-case hexadecimal digits of a byte value. -/
def hex2 (n : Nat) : String :=
  String.mk [hexDigit (n / 16 % 16), hexDigit (n % 16)]

/-- One character of Python's string `repr`, given the chosen enclosing
quote: backslashes, the quote, and ASCII control characters (and DEL) are
escaped as CPython escapes them; other characters pass through.
(Unprintable non-ASCII codepoints, which CPython would render as
`\\uXXXX`, are not escaped here; no theorem depends on them.) -/
def pyEscChar (quote : Char) (c : Char) : String :=
  if c == '\\' then "\\\\"
  else if c == quote then "\\" ++ String.mk [quote]
  else if c == '\n' then "\\n"
  else if c == '\r' then "\\r"
  else if c == '\t' then "\\t"
  else if c.toNat < 32 || c.toNat == 127 then "\\x" ++ hex2 c.toNat
  else String.mk [c]

/-- Python's `repr` of a string: single quotes unless the string contains
a single quote and no double quote (then double quotes), with escaping
per `pyEscChar`. -/
def pyReprStr (s : String) : String :=
  let hasSingle := s.toList.contains singleQuoteChar
  let hasDouble := s.toList.contains doubleQuoteChar
  let q : Char := if hasSingle && !hasDouble then doubleQuoteChar else singleQuoteChar
  String.mk [q] ++ String.join (s.toList.map (pyEscChar q)) ++ String.mk [q]

mutual

/-- Python's `repr` of a parsed-JSON value: `None`/`True`/`False`,
decimal integers, quoted strings, and recursively rendered lists and
dicts, as CPython prints them. -/
def pyRepr : JVal → String
  | .null => "None"
  | .jbool b => if b then "True" else "False"
  | .jstr s => pyReprStr s
  | .jnum n => toString n
  | .jarr xs => "[" ++ pyReprList xs ++ "]"
  | .jobj fs => "\x7b" ++ pyReprFields fs ++ "\x7d"

/-- `repr` of list elements, joined by `", "`. -/
def pyReprList : List JVal → String
  | [] => ""
  | [v] => pyRepr v
  | v :: vs => pyRepr v ++ ", " ++ pyReprList vs

/-- `repr` of dict entries (`'key': value`), joined by `", "`. -/
def pyReprFields : List (String × JVal) → String
  | [] => ""
  | [(k, v)] => pyReprStr k ++ ": " ++ pyRepr v
  | (k, v) :: fvs => pyReprStr k ++ ": " ++ pyRepr v ++ ", " ++ pyReprFields fvs

end

/-- Python's `str()` as applied by f-string interpolation: a string is
inserted verbatim, any other value is rendered by `repr`. -/
def pyStr : JVal → String
  | .jstr s => s
  | v => pyRepr v

/-- Embeds `response_json.get("error", {})` followed by `.get(...)` on
the result, up to the point where the key lookups diverge: `.ok` carries
the fields of the error object (empty when the `"error"` key is absent,
so the later `.get(key, default)` yields the default), and `.error ()`
is Python's `AttributeError` — raised when `response_json` is not a dict
(the first `.get` crashes) or when its `"error"` value is present and not
a dict (the second `.get` crashes). -/
def errRaw (rj : JVal) : Except Unit (List (String × JVal)) :=
  match rj with
  | .jobj fs =>
    match jlookup fs "error" with
    | none => .ok []
    | some (.jobj efs) => .ok efs
    | some _ => .error ()
  | _ => .error ()

/-- The synthetic error body `_handle_response` substitutes when the
response body cannot be parsed as JSON:
`{"error": {"message": "Unknown error", "code": str(response.status)}}`. -/
def syntheticBody (status : Nat) : JVal :=
  .jobj [("error", .jobj [("message", .jstr "Unknown error"),
                          ("code", .jstr (toString status))])]

/-- Outcome of `_handle_response`: a parsed success body, a 204 no-content
return, a raised `HTTPException` (status, detail), a raised
`IntegrationAPIError` (message, status_code, error_code — the error code
is passed through as the raw Python value, so it is a `JVal`), or an
unhandled `AttributeError` escaping the method when the error-field
extraction crashes. -/
inductive HandleResult where
  | success (body : JVal)
  | noContent
  | clientError (status : Nat) (detail : JVal)
  | apiError (message : String) (status : Nat) (errorCode : JVal)
  | attributeError

/-- Embedding of `PracticeFusionIntegration._handle_response`.  `parsed` is
`some body` when `response.json()` succeeds and `none` when it raises.
For statuses past the 2xx/204 early returns, the error-field extraction
runs before the status branching, so a body on which Python's
`.get` chain raises `AttributeError` crashes every non-success status;
a present `"message"` value is interpolated via `str()` (`pyStr`), the
defaults apply only to absent keys, and a present `"code"` value is
passed through raw. -/
def handle_response (status : Nat) (parsed : Option JVal) : HandleResult :=
  let response_json := parsed.getD (syntheticBody status)
  if 200 ≤ status ∧ status < 204 then
    .success response_json
  else if status == 204 then
    .noContent
  else
    match errRaw response_json with
    | .error _ => .attributeError
    | .ok efs =>
      let error_message :=
        match jlookup efs "message" with
        | some v => pyStr v
        | none => "Unknown error"
      let error_code : JVal := (jlookup efs "code").getD (.jstr (toString status))
      if 400 ≤ status ∧ status < 500 then
        .clientError status response_json
      else if 500 ≤ status then
        .apiError ("Downstream server error (translated to HTTP 501): " ++ error_message)
          501 error_code
      else
        .apiError (error_message ++ " (HTTP " ++ toString status ++ ")") status error_code

/-- The status code carried by a failure result, `none` for non-failures. -/
def HandleResult.failureStatus : HandleResult → Option Nat
  | .clientError status _ => some status
  | .apiError _ status _ => some status
  | _ => none

/-- `true` exactly on the success constructor. -/
def HandleResult.isSuccess : HandleResult → Bool
  | .success _ => true
  | _ => false

/-! ## Workflow-level data model

Workflows are embedded as pure functions from a request plus an explicit
environment (the remote responses, in the order the code consumes them) to
a pair of the emitted network-call trace and a result.  Raised
`HTTPException`s become `PFError` values. -/

/-- One outbound network call, tagged with the request data each claim
needs to observe. Times are minutes (`Int`). -/
inductive NetCall where
  | appointmentTypesList
  | patientSearch (firstName lastName : String)
  | providerList
  | facilityList
  | conflictsCheck (providerGuid facilityGuid : String) (startAt endAt : Int)
  | createAppointment (practiceGuid typeGuid patientId providerGuid facilityGuid : String)
      (startAt endAt : Int)
  | encounterEventTypeList
  | createTranscript (encounterGuid participantGuid facilityGuid : String)
  | healthConcernsGet (patientPracticeGuid : String)
  | healthConcernPost (patientPracticeGuid note : String)
  | healthConcernPut (patientPracticeGuid concernGuid note : String)
  | patchTranscriptField (field value : String)
  | transcriptEventsList (transcriptGuid : String)
  | updateCarePlan (transcriptEventGuid comments : String)
  | drugSearch (searchCriteria : String)
  | interactionCheck (drugName : String)
  | addMedication (drugName : String)
  | addTranscriptMedication (medicationGuid : String)
deriving DecidableEq, Repr

/-- The `detail` argument of a raised `HTTPException`: plain text, or the
structured safety-block payload of `process_medications` which carries the
three alert lists verbatim. -/
inductive ErrDetail where
  | text (msg : String)
  | safety (message : String)
      (drugInteractionAlerts drugAllergyAlerts drugAlertErrors : List String)
deriving DecidableEq, Repr

/-- A raised `HTTPException(status_code, detail)`. -/
structure PFError where
  status : Nat
  detail : ErrDetail
deriving DecidableEq, Repr

/-- A remote patient record (only the consumed field). -/
structure Patient where
  patientPracticeGuid : String
deriving DecidableEq, Repr

/-- A remote provider-list entry. -/
structure Provider where
  providerName : String
  providerGuid : String
deriving DecidableEq, Repr

/-- A remote facility-list entry. -/
structure Facility where
  facilityName : String
  facilityGuid : String
  practiceGuid : String
deriving DecidableEq, Repr

/-- A remote appointment-type entry (`name`, `id`). -/
structure ApptType where
  typeName : String
  typeId : String
deriving DecidableEq, Repr

/-- A remote encounter-event-type entry. -/
structure EncEvent where
  displayName : String
  eventTypeGuid : String
deriving DecidableEq, Repr

/-- A remote drug-catalog record (the fields `process_medications`
consumes). -/
structure Drug where
  drugName : String
  ndc : String
  doseForm : String
  genericName : String
  isGeneric : Bool
  isMedicalSupply : Bool
  productStrength : String
  route : String
  rxNormCui : String
  tradeName : String
deriving DecidableEq, Repr

/-- A drug-interaction screen response: the three alert categories
(each a list of opaque alert payloads). `dict.get(key)` is truthy exactly
when the corresponding list is non-empty. -/
structure InteractionData where
  drugInteractionAlerts : List String
  drugAllergyAlerts : List String
  drugAlertErrors : List String
deriving DecidableEq, Repr

/-- The hard-coded default provider guid (`anurag`). -/
def defaultProviderGuid : String := "d744609f-1bab-4e11-89bd-680e8d19a397"

/-- The hard-coded default facility guid (Silicon beach medical center). -/
def defaultFacilityGuid : String := "68cc1f4c-0378-424f-9d12-e3ee0ab9b4be"

/-- The hard-coded default practice guid (Silicon beach medical center). -/
def defaultPracticeGuid : String := "f6f290f1-968a-4900-a7a0-5500ce2a30f7"

/-- The hard-coded fallback encounter-event-type guid used by
`get_encounter_guid_from_display_name` when no display name matches. -/
def defaultEncounterGuid : String := "9381cfbf-373b-418e-812c-e44b97835be4"

/-- Embedding of `is_guid`:
`len(value) == 36 and value.count("-") == 4`. -/
def is_guid (value : String) : Bool :=
  value.length == 36 && value.toList.count '-' == 4

/-- Python `str.split()` with no argument: split on whitespace runs,
dropping empty tokens. -/
def pySplit (s : String) : List String :=
  (s.split (fun c => c.isWhitespace)).filter (fun t => !(t == ""))

/-- The fixed rich-text markup wrapper
`<div class="pf-rich-text"><p>…</p></div>`. -/
def richWrap (t : String) : String :=
  "<div class=\"pf-rich-text\"><p>" ++ t ++ "</p></div>"

/-- Embedding of `format_rich_text`: wraps truthy text in the fixed
rich-text markup, maps falsy text (`None` or `""`) to `None`. -/
def format_rich_text : Option String → Option String
  | some t => if t == "" then none else some (richWrap t)
  | none => none

/-- Embedding of `get_participant_guid_from_name`: one patient-search
call; zero matches raise 404, otherwise the first match's guid is
returned. -/
def get_participant_guid_from_name (firstname lastname : String)
    (patients : List Patient) : List NetCall × Except PFError String :=
  ([.patientSearch firstname lastname],
    match patients with
    | [] => .error ⟨404, .text "Patient not found."⟩
    | p :: _ => .ok p.patientPracticeGuid)

/-- Embedding of `get_facility_guid_from_name`: one facility-list call;
no name match raises 404. -/
def get_facility_guid_from_name (facilityname : String)
    (facilities : List Facility) : List NetCall × Except PFError String :=
  ([.facilityList],
    match facilities.find? (fun f => f.facilityName == facilityname) with
    | none => .error ⟨404, .text "Facility not found."⟩
    | some f => .ok f.facilityGuid)

/-- Embedding of `get_encounter_guid_from_display_name`: one
encounter-event-type list call; an unmatched display name falls back to
the fixed default guid (it never raises). `displayName` is optional
because `create_soap_notes` passes `request.eventDisplayName`, which may
be `None`. -/
def get_encounter_guid_from_display_name (displayName : Option String)
    (events : List EncEvent) : List NetCall × String :=
  ([.encounterEventTypeList],
    match events.find? (fun e => displayName == some e.displayName) with
    | none => defaultEncounterGuid
    | some e => e.eventTypeGuid)

/-- The patient-resolution expression shared by `get_encounters` and
`create_soap_notes`: a guid-shaped input is used verbatim with no call,
otherwise the display name is split into first/last tokens and searched.
(`split()[0]` / `split()[-1]` raise `IndexError` on a whitespace-only
input; the `""` defaults here are never exercised by the theorems.) -/
def resolveParticipantGuid (input : String) (patients : List Patient) :
    List NetCall × Except PFError String :=
  if is_guid input then ([], .ok input)
  else get_participant_guid_from_name ((pySplit input).headD "")
    ((pySplit input).getLastD "") patients

/-- The facility-resolution expression of `create_soap_notes`: a falsy
input (`None`/`""`) keeps the default facility guid, a guid-shaped input
is used verbatim, otherwise the name is resolved via the facility list. -/
def resolveSoapFacility (facilityNameOrGuid : Option String)
    (facilities : List Facility) : List NetCall × Except PFError String :=
  match facilityNameOrGuid with
  | none => ([], .ok defaultFacilityGuid)
  | some f =>
    if f == "" then ([], .ok defaultFacilityGuid)
    else if is_guid f then ([], .ok f)
    else get_facility_guid_from_name f facilities

/-- The provider-resolution prefix of `process_medications`: falsy input
keeps the default provider guid, a guid-shaped input is used verbatim
with no call, otherwise the provider list is fetched and matched by
name (404 on no match). -/
def resolveMedProvider (providerNameOrGuid : Option String)
    (providerData : List Provider) : List NetCall × Except PFError String :=
  match providerNameOrGuid with
  | none => ([], .ok defaultProviderGuid)
  | some p =>
    if p == "" then ([], .ok defaultProviderGuid)
    else if is_guid p then ([], .ok p)
    else
      ([.providerList],
        match providerData.find? (fun pr => pr.providerName == p) with
        | none => .error ⟨404, .text ("Provider " ++ p ++ " not found.")⟩
        | some pr => .ok pr.providerGuid)

/-! ## Appointment creation (`models.AppointmentRequest`,
`check_for_conflicts`, `create_appointment`) -/

/-- A scheduler-event participant of an appointment request. -/
structure SchedParticipant where
  chiefComplaint : String
  firstName : String
  lastName : String
deriving DecidableEq, Repr

/-- Embedding of `models.AppointmentRequest` after pydantic validation but
before its `__init__` end-time defaulting: `endAtDateTimeUtc` is the raw
caller-supplied value.  Datetimes are minutes (`Int`). -/
structure AppointmentRequest where
  facilityName : Option String := none
  appointmentType : String
  schedulerEventParticipants : List SchedParticipant
  lastModifiedByProvider : Option String := none
  startAtDateTimeUtc : Int
  endAtDateTimeUtc : Option Int := none
  insuranceCoverageTypeCode : Option String := some "Unins"
deriving DecidableEq, Repr

/-- The end-time defaulting performed in `AppointmentRequest.__init__`:
`if not self.endAtDateTimeUtc: self.endAtDateTimeUtc = self.startAtDateTimeUtc
+ timedelta(minutes=30)` (a `datetime` is always truthy, so only `None` is
replaced). -/
def AppointmentRequest.resolvedEndAt (r : AppointmentRequest) : Int :=
  match r.endAtDateTimeUtc with
  | none => r.startAtDateTimeUtc + 30
  | some e => e

/-- Environment of remote responses consumed by `create_appointment`, in
consumption order. -/
structure ApptEnv where
  appointmentTypes : List ApptType
  patients : List Patient
  providerData : List Provider
  facilityData : List Facility
  conflictsExist : Bool
deriving DecidableEq, Repr

/-- Embedding of `check_for_conflicts`: one conflicts query; a
`conflictsExist` response raises 400. -/
def check_for_conflicts (provider_guid facility_guid : String)
    (start_at end_at : Int) (conflictsExist : Bool) :
    List NetCall × Option PFError :=
  ([.conflictsCheck provider_guid facility_guid start_at end_at],
    if conflictsExist then
      some ⟨400, .text "Conflicts exist with the selected time. Please select a different time."⟩
    else none)

/-- The provider-resolution step of `create_appointment`: a falsy
`lastModifiedByProvider` keeps the default provider guid and issues no
call; otherwise the provider list is fetched and matched by exact name
(404 on no match).  Note: unlike `process_medications`, there is no
guid-shape short-circuit here. -/
def resolveApptProvider (lastModifiedByProvider : Option String)
    (providerData : List Provider) : List NetCall × Except PFError String :=
  match lastModifiedByProvider with
  | none => ([], .ok defaultProviderGuid)
  | some pname =>
    if pname == "" then ([], .ok defaultProviderGuid)
    else
      ([.providerList],
        match providerData.find? (fun p => p.providerName == pname) with
        | none => .error ⟨404, .text "Provider not found."⟩
        | some p => .ok p.providerGuid)

/-- The facility-resolution step of `create_appointment`: a falsy
`facilityName` keeps the default facility/practice guids; otherwise the
facility list is fetched and matched by exact name (404 on no match),
yielding `(facilityGuid, practiceGuid)`. -/
def resolveApptFacility (facilityName : Option String)
    (facilityData : List Facility) :
    List NetCall × Except PFError (String × String) :=
  match facilityName with
  | none => ([], .ok (defaultFacilityGuid, defaultPracticeGuid))
  | some fname =>
    if fname == "" then ([], .ok (defaultFacilityGuid, defaultPracticeGuid))
    else
      ([.facilityList],
        match facilityData.find? (fun f => f.facilityName == fname) with
        | none => .error ⟨404, .text "Facility not found."⟩
        | some f => .ok (f.facilityGuid, f.practiceGuid))

/-- Embedding of `create_appointment`.  The Python accesses
`schedulerEventParticipants[0]` before its first call, so an empty
participant list crashes before any network traffic (modelled as a
status-500 failure with an empty trace). -/
def create_appointment (req : AppointmentRequest) (env : ApptEnv) :
    List NetCall × Except PFError Unit :=
  match req.schedulerEventParticipants with
  | [] => ([], .error ⟨500, .text "IndexError: list index out of range"⟩)
  | p0 :: _ =>
    let calls1 := [NetCall.appointmentTypesList]
    match env.appointmentTypes.find? (fun t => t.typeName == req.appointmentType) with
    | none => (calls1, .error ⟨404, .text "Appointment type not found."⟩)
    | some apptType =>
      let calls2 := calls1 ++ [.patientSearch p0.firstName p0.lastName]
      match env.patients with
      | [] => (calls2, .error ⟨404, .text "Patient not found."⟩)
      | patient :: _ =>
        let patient_id := patient.patientPracticeGuid
        let provRes := resolveApptProvider req.lastModifiedByProvider env.providerData
        let calls3 := calls2 ++ provRes.fst
        match provRes.snd with
        | .error e => (calls3, .error e)
        | .ok provider_guid =>
          let facRes := resolveApptFacility req.facilityName env.facilityData
          let calls4 := calls3 ++ facRes.fst
          match facRes.snd with
          | .error e => (calls4, .error e)
          | .ok (facility_guid, practice_guid) =>
            let startAt := req.startAtDateTimeUtc
            let endAt := req.resolvedEndAt
            let conflictRes := check_for_conflicts provider_guid facility_guid
              startAt endAt env.conflictsExist
            let calls5 := calls4 ++ conflictRes.fst
            match conflictRes.snd with
            | some e => (calls5, .error e)
            | none =>
              (calls5 ++ [.createAppointment practice_guid apptType.typeId
                patient_id provider_guid facility_guid startAt endAt], .ok ())

/-- `true` exactly on the create-appointment call. -/
def isCreateAppointmentCall : NetCall → Bool
  | .createAppointment _ _ _ _ _ _ _ => true
  | _ => false

/-! ## Medication processing (`process_medications`) -/

/-- Embedding of `models.MedicationRequest`. -/
structure MedicationRequest where
  searchCriteria : String
  drugNameOrNdc : String
deriving DecidableEq, Repr

/-- Remote responses consumed for one medication of the list: the drug
search result, the interaction screen response, and the `medicationGuid`
returned by the add-medication call (used by the association call). -/
structure MedStepEnv where
  drugSearchResult : List Drug
  interaction : InteractionData
  addMedGuid : String
deriving Repr

/-- The drug-match predicate of `process_medications`:
`d["drugName"].lower() == med.drugNameOrNdc.lower() or d["ndc"] == med.drugNameOrNdc`. -/
def drugMatches (med : MedicationRequest) (d : Drug) : Bool :=
  d.drugName.toLower == med.drugNameOrNdc.toLower || d.ndc == med.drugNameOrNdc

/-- `any(interaction_data.get(key) for key in [...])` over the three alert
categories: truthy exactly when some list is non-empty. -/
def anyAlerts (i : InteractionData) : Bool :=
  !i.drugInteractionAlerts.isEmpty || !i.drugAllergyAlerts.isEmpty ||
    !i.drugAlertErrors.isEmpty

/-- The safety-block `HTTPException` raised when the interaction screen
reports any alert: status 400, detail carrying the message and all three
alert lists verbatim. -/
def safetyBlockError (drugName : String) (i : InteractionData) : PFError :=
  ⟨400, .safety
    ("Potential drug interactions or allergies detected between patient and drug:"
      ++ drugName ++ ".")
    i.drugInteractionAlerts i.drugAllergyAlerts i.drugAlertErrors⟩

/-- The per-medication loop of `process_medications`, from step index
`i` (the environment is indexed by absolute position in the input list).
Per medication: drug search; no match raises 404; interaction screen;
any non-empty alert list raises the safety block; otherwise the
medication is added and associated with the transcript, and the loop
continues. -/
def processMedsFrom (env : Nat → MedStepEnv) (i : Nat) :
    List MedicationRequest → List NetCall × Option PFError
  | [] => ([], none)
  | med :: rest =>
    let e := env i
    let calls1 := [NetCall.drugSearch med.searchCriteria]
    match e.drugSearchResult.find? (drugMatches med) with
    | none =>
      (calls1, some ⟨404, .text ("No matching drug found for " ++ med.searchCriteria)⟩)
    | some matched_drug =>
      let calls2 := calls1 ++ [.interactionCheck matched_drug.drugName]
      if anyAlerts e.interaction then
        (calls2, some (safetyBlockError matched_drug.drugName e.interaction))
      else
        let calls3 := calls2 ++ [.addMedication matched_drug.drugName,
          .addTranscriptMedication e.addMedGuid]
        let restRes := processMedsFrom env (i + 1) rest
        (calls3 ++ restRes.fst, restRes.snd)

/-- Embedding of `process_medications`: resolve the provider once
(default / guid passthrough / name lookup), then run the per-medication
loop. -/
def process_medications (medication : List MedicationRequest)
    (providerNameOrGuid : Option String) (providerData : List Provider)
    (env : Nat → MedStepEnv) : List NetCall × Option PFError :=
  let provRes := resolveMedProvider providerNameOrGuid providerData
  match provRes.snd with
  | .error e => (provRes.fst, some e)
  | .ok _ =>
    let loopRes := processMedsFrom env 0 medication
    (provRes.fst ++ loopRes.fst, loopRes.snd)

/-- `true` exactly on the add-medication call. -/
def isAddMedicationCall : NetCall → Bool
  | .addMedication _ => true
  | _ => false

/-! ## SOAP-note / transcript workflow (`create_soap_notes` and its
helpers) -/

/-- Embedding of `models.PatientTranscriptRequest`. -/
structure PatientTranscriptRequest where
  patientNameOrParticipantGuid : String
  transcriptGuid : Option String := none
  facilityNameOrGuid : Option String := none
  eventDisplayName : Option String := none
  healthConcernNote : Option String := none
  chiefComplaint : Option String := none
  subjectiveNote : Option String := none
  objectiveNote : Option String := none
  assessmentNote : Option String := none
  planNote : Option String := none
  carePlanNotes : Option String := none
  medication : Option (List MedicationRequest) := none
  providerNameOrGuid : Option String := none
deriving Repr

/-- A transcript-event entry (the fields `update_care_plan_notes`
consumes). -/
structure TranscriptEvent where
  eventTypeDisplayName : String
  transcriptEventGuid : String
deriving DecidableEq, Repr

/-- Remote responses consumed by `create_soap_notes`, in consumption
order. -/
structure SoapEnv where
  patients : List Patient
  facilities : List Facility
  encounterEvents : List EncEvent
  newTranscriptGuid : String
  existingHealthConcernGuids : List String
  transcriptEvents : List TranscriptEvent
  providerData : List Provider
  medEnv : Nat → MedStepEnv

/-- Embedding of `create_health_concern`: fetch existing concerns; with
none, POST a new concern, otherwise PUT onto the first existing one.
It raises nothing itself. -/
def create_health_concern (patient_practice_guid healthConcernNote : String)
    (existingConcernGuids : List String) : List NetCall :=
  [.healthConcernsGet patient_practice_guid] ++
    match existingConcernGuids with
    | [] => [.healthConcernPost patient_practice_guid healthConcernNote]
    | g :: _ => [.healthConcernPut patient_practice_guid g healthConcernNote]

/-- One iteration of the `for field, value in fields.items()` loop of
`create_soap_notes`: a truthy value yields its field-patch call, a falsy
one yields no call. -/
def sectionEmit (fv : String × Option String) : Option NetCall :=
  match fv.2 with
  | some v => if v == "" then none else some (.patchTranscriptField fv.1 v)
  | none => none

/-- The `fields` map built by `create_soap_notes` (lines 1046–1052), in
insertion order: `chiefComplaintNote` takes the raw chief complaint, the
other four sections are wrapped by `format_rich_text`. -/
def soapFields (req : PatientTranscriptRequest) : List (String × Option String) :=
  [("chiefComplaintNote", req.chiefComplaint),
   ("subjectiveNote", format_rich_text req.subjectiveNote),
   ("objectiveNote", format_rich_text req.objectiveNote),
   ("assessmentNote", format_rich_text req.assessmentNote),
   ("planNote", format_rich_text req.planNote)]

/-- The field-patch calls issued by the section loop of
`create_soap_notes` (lines 1054–1058). -/
def soapSectionCalls (req : PatientTranscriptRequest) : List NetCall :=
  (soapFields req).filterMap sectionEmit

/-- Embedding of `update_care_plan_notes`: fetch the transcript events,
locate the event whose display name is "Care plan" (404 if absent), then
update it with the rich-text-wrapped notes. -/
def update_care_plan_notes (transcript_guid carePlanNotes : String)
    (transcriptEvents : List TranscriptEvent) : List NetCall × Option PFError :=
  let calls1 := [NetCall.transcriptEventsList transcript_guid]
  match transcriptEvents.find? (fun e => e.eventTypeDisplayName == "Care plan") with
  | none => (calls1, some ⟨404, .text "Care plan event not found."⟩)
  | some ev =>
    (calls1 ++ [.updateCarePlan ev.transcriptEventGuid
      ("<div class=\"pf-rich-text\"><p>" ++ carePlanNotes ++ "</p></div>")], none)

/-- Embedding of `create_soap_notes`: resolve patient and facility
(guid-shape short-circuits), create a transcript when no transcript guid
was supplied (encounter type soft-falls-back to the default guid), then
conditionally apply health concern, the five sections, care-plan notes
and the medication list, failing fast at the first raised exception. -/
def create_soap_notes (req : PatientTranscriptRequest) (env : SoapEnv) :
    List NetCall × Except PFError String :=
  let partRes := resolveParticipantGuid req.patientNameOrParticipantGuid env.patients
  match partRes.snd with
  | .error e => (partRes.fst, .error e)
  | .ok participant_guid =>
    let facRes := resolveSoapFacility req.facilityNameOrGuid env.facilities
    let calls1 := partRes.fst ++ facRes.fst
    match facRes.snd with
    | .error e => (calls1, .error e)
    | .ok facility_guid =>
      let transcriptRes : List NetCall × String :=
        match req.transcriptGuid with
        | some tg =>
          if tg == "" then
            let encRes := get_encounter_guid_from_display_name req.eventDisplayName
              env.encounterEvents
            (encRes.fst ++ [.createTranscript encRes.snd participant_guid facility_guid],
              env.newTranscriptGuid)
          else ([], tg)
        | none =>
          let encRes := get_encounter_guid_from_display_name req.eventDisplayName
            env.encounterEvents
          (encRes.fst ++ [.createTranscript encRes.snd participant_guid facility_guid],
            env.newTranscriptGuid)
      let transcript_guid := transcriptRes.snd
      let calls2 := calls1 ++ transcriptRes.fst
      let patient_practice_guid := participant_guid
      let hcCalls :=
        match req.healthConcernNote with
        | none => []
        | some note =>
          if note == "" then []
          else create_health_concern patient_practice_guid note
            env.existingHealthConcernGuids
      let calls3 := calls2 ++ hcCalls ++ soapSectionCalls req
      let carePlanRes : List NetCall × Option PFError :=
        match req.carePlanNotes with
        | none => ([], none)
        | some notes =>
          if notes == "" then ([], none)
          else update_care_plan_notes transcript_guid notes env.transcriptEvents
      let calls4 := calls3 ++ carePlanRes.fst
      match carePlanRes.snd with
      | some e => (calls4, .error e)
      | none =>
        let medRes : List NetCall × Option PFError :=
          match req.medication with
          | none => ([], none)
          | some [] => ([], none)
          | some meds =>
            process_medications meds req.providerNameOrGuid env.providerData env.medEnv
        let calls5 := calls4 ++ medRes.fst
        match medRes.snd with
        | some e => (calls5, .error e)
        | none => (calls5, .ok transcript_guid)

/-! ## Concrete inputs used by counterexamples and witnesses -/

/-- An appointment request with an explicit end time earlier than its
start time; pydantic performs no cross-field check, so it validates. -/
def c7BadEndReq : AppointmentRequest :=
  { appointmentType := "Wellness Exam",
    schedulerEventParticipants := [⟨"", "Jane", "Doe"⟩],
    startAtDateTimeUtc := 100,
    endAtDateTimeUtc := some 0 }

/-- An appointment request without an explicit end time. -/
def c6Req : AppointmentRequest :=
  { appointmentType := "Wellness Exam",
    schedulerEventParticipants := [⟨"", "Jane", "Doe"⟩],
    startAtDateTimeUtc := 600 }

/-- An appointment request whose `lastModifiedByProvider` is a guid-shaped
string (36 characters, four hyphens). -/
def c3Req : AppointmentRequest :=
  { appointmentType := "Wellness Exam",
    schedulerEventParticipants := [⟨"", "Jane", "Doe"⟩],
    lastModifiedByProvider := some "d744609f-1bab-4e11-89bd-680e8d19a397",
    startAtDateTimeUtc := 600 }

/-- Remote responses for the `c3Req` run: the type and patient resolve,
and the provider list holds no provider whose *name* is the guid. -/
def c3Env : ApptEnv :=
  { appointmentTypes := [⟨"Wellness Exam", "t1"⟩],
    patients := [⟨"p1"⟩],
    providerData := [⟨"Dr House", "pg1"⟩],
    facilityData := [],
    conflictsExist := false }

/-- A transcript request identified by a guid-shaped patient token with an
encounter display name to resolve. -/
def c4Req : PatientTranscriptRequest :=
  { patientNameOrParticipantGuid := "cccccccc-cccc-cccc-cccc-cccccccccccc",
    eventDisplayName := some "Office Visit" }

/-- Remote responses for the `c4Req` run: the encounter-event-type list
contains no match for "Office Visit". -/
def c4Env : SoapEnv :=
  { patients := [],
    facilities := [],
    encounterEvents := [],
    newTranscriptGuid := "nt1",
    existingHealthConcernGuids := [],
    transcriptEvents := [],
    providerData := [],
    medEnv := fun _ => ⟨[], ⟨[], [], []⟩, ""⟩ }

/-- A transcript request whose only note section is a non-blank chief
complaint. -/
def c5Req : PatientTranscriptRequest :=
  { patientNameOrParticipantGuid := "dddddddd-dddd-dddd-dddd-dddddddddddd",
    chiefComplaint := some "headache" }

/-- A transcript request with a chief complaint and a subjective note set
and the remaining sections blank. -/
def c5ReqW : PatientTranscriptRequest :=
  { patientNameOrParticipantGuid := "dddddddd-dddd-dddd-dddd-dddddddddddd",
    chiefComplaint := some "c0",
    subjectiveNote := some "s0" }

/-- A drug-catalog record matching the medication request of the C1
witness by case-insensitive name. -/
def c1Drug : Drug :=
  { drugName := "Aspirin", ndc := "00111222333", doseForm := "tablet",
    genericName := "aspirin", isGeneric := true, isMedicalSupply := false,
    productStrength := "81 mg", route := "oral", rxNormCui := "1191",
    tradeName := "Aspirin" }

/-- An interaction-screen response whose allergy alert list is
non-empty. -/
def c1Interaction : InteractionData :=
  { drugInteractionAlerts := [], drugAllergyAlerts := ["allergy-alert-1"],
    drugAlertErrors := [] }

/-- The per-medication environment of the C1 witness: every step finds
`c1Drug` and screens to `c1Interaction`. -/
def c1EnvFun : Nat → MedStepEnv :=
  fun _ => ⟨[c1Drug], c1Interaction, "m1"⟩

/-- An appointment request used by the C2 witness (no provider or
facility override, no explicit end time). -/
def c2Req : AppointmentRequest :=
  { appointmentType := "Wellness Exam",
    schedulerEventParticipants := [⟨"checkup", "Jane", "Doe"⟩],
    startAtDateTimeUtc := 600 }

/-- Remote responses for the `c2Req` run, with the conflict check
reporting an existing overlap. -/
def c2Env : ApptEnv :=
  { appointmentTypes := [⟨"Wellness Exam", "t1"⟩],
    patients := [⟨"p1"⟩],
    providerData := [],
    facilityData := [],
    conflictsExist := true }

/-! ## Theorems -/

/-- Claim C6: every appointment request constructed without an explicit
end time resolves its end time to the start time plus 30 minutes. -/
theorem C6_default_end_time (r : AppointmentRequest)
    (h : r.endAtDateTimeUtc = none) :
    r.resolvedEndAt = r.startAtDateTimeUtc + 30 := by
  simp [AppointmentRequest.resolvedEndAt, h]

/-- Witness for C6 at a concrete request starting at minute 600. -/
theorem C6_default_end_time_witness : c6Req.resolvedEndAt = 630 := by
  have h := C6_default_end_time c6Req rfl
  simpa [c6Req] using h

/-- Counterexample to claim C7: an appointment request with an explicit
end time of minute 0 and a start time of minute 100 passes construction
unvalidated, and its resolved end time is strictly before its start
time. -/
theorem C7_end_time_counterexample :
    c7BadEndReq.resolvedEndAt < c7BadEndReq.startAtDateTimeUtc := by decide

/-- Claim C7 as amended: the derived end time (when no explicit end time
is supplied) is at least the start time, but a caller-supplied end time is
used verbatim with no validation against the start time. -/
theorem C7_end_time_amended (r : AppointmentRequest) :
    (r.endAtDateTimeUtc = none → r.startAtDateTimeUtc ≤ r.resolvedEndAt) ∧
    (∀ e, r.endAtDateTimeUtc = some e → r.resolvedEndAt = e) := by
  constructor
  · intro h
    simp only [AppointmentRequest.resolvedEndAt, h]
    omega
  · intro e h
    simp [AppointmentRequest.resolvedEndAt, h]

/-- Witness for the amended C7: the default derivation at start 600 is ≥
the start, and the explicit end 0 of `c7BadEndReq` is kept verbatim. -/
theorem C7_end_time_amended_witness :
    c6Req.startAtDateTimeUtc ≤ c6Req.resolvedEndAt ∧
    c7BadEndReq.resolvedEndAt = 0 :=
  ⟨(C7_end_time_amended c6Req).1 rfl, (C7_end_time_amended c7BadEndReq).2 0 rfl⟩

/-- Counterexample to claim C8, in its two failure modes: a remote status
of exactly 501 is translated to the fixed normalized status 501, which is
*not* distinct from the original status; and a 5xx response whose parsed
body maps "error" to `null` raises an unhandled `AttributeError` during
field extraction instead of failing with any Downstream Server Error. -/
theorem C8_downstream_counterexample :
    handle_response 501 none =
      .apiError "Downstream server error (translated to HTTP 501): Unknown error"
        501 (.jstr "501") ∧
    (handle_response 501 none).failureStatus = some 501 ∧
    handle_response 500 (some (.jobj [("error", .null)])) = .attributeError := by
  refine ⟨rfl, rfl, rfl⟩

/-- Claim C8 as amended: a response with status ≥ 500 whose parsed body
is a JSON object fails with a Downstream Server Error normalized to the
single fixed status 501 — distinct from the original status except when
the original is itself 501 — carrying the original error message when the
error object provides one ("Unknown error" when absent) and the original
code value (the stringified status when absent); but when the body's
"error" member is present and not an object (or the body is not an
object), the extraction raises an unhandled AttributeError before any
classification, so no Downstream Server Error is produced there. -/
theorem C8_downstream_amended (status : Nat) (fs efs : List (String × JVal))
    (h : 500 ≤ status) :
    (∀ msg code, jlookup fs "error" = some (.jobj efs) →
      jlookup efs "message" = some (.jstr msg) →
      jlookup efs "code" = some (.jstr code) →
      handle_response status (some (.jobj fs)) =
        .apiError ("Downstream server error (translated to HTTP 501): " ++ msg)
          501 (.jstr code)) ∧
    (jlookup fs "error" = none →
      handle_response status (some (.jobj fs)) =
        .apiError "Downstream server error (translated to HTTP 501): Unknown error"
          501 (.jstr (toString status))) ∧
    (∀ v, jlookup fs "error" = some v → (∀ gs, v ≠ .jobj gs) →
      handle_response status (some (.jobj fs)) = .attributeError) := by
  have h1 : ¬(200 ≤ status ∧ status < 204) := by omega
  have h2 : (status == 204) = false := by simp; omega
  have h3 : ¬(400 ≤ status ∧ status < 500) := by omega
  refine ⟨?_, ?_, ?_⟩
  · intro msg code herr hmsg hcode
    simp [handle_response, h1, h2, h3, h, errRaw, herr, hmsg, hcode, pyStr]
  · intro herr
    simp [handle_response, h1, h2, h3, h, errRaw, herr, jlookup]
    rfl
  · intro v herr hnv
    have hraw : errRaw (.jobj fs) = .error () := by
      simp only [errRaw, herr]
    simp [handle_response, h1, h2, hraw]

/-- Witness for the amended C8 at status 502: a well-formed error body
yields the translated 501 failure with its message and code, and a body
whose "error" member is a string crashes with the AttributeError. -/
theorem C8_downstream_amended_witness :
    handle_response 502
        (some (.jobj [("error", .jobj [("message", .jstr "backend down"),
                                       ("code", .jstr "EDOWN")])])) =
      .apiError "Downstream server error (translated to HTTP 501): backend down"
        501 (.jstr "EDOWN") ∧
    handle_response 502 (some (.jobj [("error", .jstr "oops")])) =
      .attributeError := by
  have h := C8_downstream_amended 502
    [("error", .jobj [("message", .jstr "backend down"), ("code", .jstr "EDOWN")])]
    [("message", .jstr "backend down"), ("code", .jstr "EDOWN")] (by norm_num)
  have hcrash := C8_downstream_amended 502 [("error", .jstr "oops")] []
    (by norm_num)
  refine ⟨?_, ?_⟩
  · have h1 := h.1 "backend down" "EDOWN" rfl rfl rfl
    simpa using h1
  · exact hcrash.2.2 (.jstr "oops") rfl (fun gs hg => JVal.noConfusion hg)

/-- Counterexample to claim C9: a status-200 response whose body cannot
be parsed yields a *success* result carrying the synthetic error body, so
the synthetic body is not confined to the classified-failure path. -/
theorem C9_envelope_counterexample :
    handle_response 200 none = .success (syntheticBody 200) ∧
    (handle_response 200 none).isSuccess = true := by
  constructor <;> rfl

/-- Claim C9 as amended: for any status outside the success range
200–203, an unparseable body is never surfaced as a success value — on
4xx it becomes the `HTTPException` detail and on 5xx it feeds the
Downstream Server Error — but on statuses 200–203 an unparseable body is
returned as the success value itself. -/
theorem C9_envelope_amended (status : Nat) :
    ((status < 200 ∨ 204 ≤ status) →
      ∀ b, handle_response status none ≠ .success b) ∧
    (400 ≤ status ∧ status < 500 →
      handle_response status none = .clientError status (syntheticBody status)) ∧
    (500 ≤ status →
      handle_response status none =
        .apiError "Downstream server error (translated to HTTP 501): Unknown error"
          501 (.jstr (toString status))) := by
  refine ⟨?_, ?_, ?_⟩
  · intro h b
    have h1 : ¬(200 ≤ status ∧ status < 204) := by omega
    simp only [handle_response, Option.getD, if_neg h1]
    split
    · simp
    · split
      · simp
      · split
        · simp
        · split <;> simp
  · rintro ⟨h4, h5⟩
    have h1 : ¬(200 ≤ status ∧ status < 204) := by omega
    have h2 : (status == 204) = false := by simp; omega
    simp [handle_response, h1, h2, h4, h5, syntheticBody, errRaw, jlookup]
  · intro h
    have h1 : ¬(200 ≤ status ∧ status < 204) := by omega
    have h2 : (status == 204) = false := by simp; omega
    have h3 : ¬(400 ≤ status ∧ status < 500) := by omega
    simp [handle_response, h1, h2, h3, h, syntheticBody, errRaw, jlookup, pyStr]
    rfl

/-- Witness for the amended C9 at statuses 404 and 502. -/
theorem C9_envelope_amended_witness :
    handle_response 404 none ≠ .success (syntheticBody 404) ∧
    handle_response 404 none = .clientError 404 (syntheticBody 404) ∧
    handle_response 502 none =
      .apiError "Downstream server error (translated to HTTP 501): Unknown error"
        501 (.jstr "502") :=
  ⟨(C9_envelope_amended 404).1 (Or.inr (by norm_num)) (syntheticBody 404),
   (C9_envelope_amended 404).2.1 ⟨by norm_num, by norm_num⟩,
   (C9_envelope_amended 502).2.2 (by norm_num)⟩

/-- Claim C10: the identifier-shape predicate accepts exactly the strings
of length 36 containing exactly four hyphens, with no constraint on
hyphen positions or the remaining characters, and any accepted string
short-circuits patient resolution: no network call, raw string used
verbatim as the identifier. -/
theorem C10_guid_shape (s : String) (patients : List Patient) :
    (is_guid s = true ↔ (s.length = 36 ∧ s.toList.count '-' = 4)) ∧
    (is_guid s = true → resolveParticipantGuid s patients = ([], .ok s)) := by
  constructor
  · simp [is_guid]
  · intro h
    simp [resolveParticipantGuid, h]

/-- Witness for C10: a 36-character four-hyphen string that is clearly
not a canonical hex guid is accepted and passed through verbatim with no
call. -/
theorem C10_guid_shape_witness :
    is_guid "ZZZZZZZZ-ZZZZ-ZZZZ-ZZZZ-ZZZZZZZZZZZZ" = true ∧
    resolveParticipantGuid "ZZZZZZZZ-ZZZZ-ZZZZ-ZZZZ-ZZZZZZZZZZZZ" [] =
      ([], .ok "ZZZZZZZZ-ZZZZ-ZZZZ-ZZZZ-ZZZZZZZZZZZZ") :=
  ⟨by decide, (C10_guid_shape "ZZZZZZZZ-ZZZZ-ZZZZ-ZZZZ-ZZZZZZZZZZZZ" []).2 (by decide)⟩

/-- Counterexample to claim C3: `create_appointment`'s provider
resolution has no guid short-circuit — given a guid-shaped
`lastModifiedByProvider`, a provider-list network call is still issued
and the input is matched (and fails) as a name instead of being used
verbatim. -/
theorem C3_short_circuit_counterexample :
    is_guid "d744609f-1bab-4e11-89bd-680e8d19a397" = true ∧
    (create_appointment c3Req c3Env).fst =
      [.appointmentTypesList, .patientSearch "Jane" "Doe", .providerList] ∧
    (create_appointment c3Req c3Env).snd =
      .error ⟨404, .text "Provider not found."⟩ := by
  refine ⟨by decide, by decide, rfl⟩

/-- Claim C3 as amended: at the resolution sites that accept a
name-or-guid input — patient resolution in `get_encounters` and
`create_soap_notes`, facility resolution in `create_soap_notes`, and
provider resolution in `process_medications` — a guid-shaped input
(36 characters, four hyphens) issues no search or list call and is used
verbatim; `create_appointment`'s provider and facility resolutions take
names only and have no such short-circuit. -/
theorem C3_short_circuit_amended (s : String) (patients : List Patient)
    (facilities : List Facility) (providerData : List Provider)
    (h : is_guid s = true) :
    resolveParticipantGuid s patients = ([], .ok s) ∧
    resolveSoapFacility (some s) facilities = ([], .ok s) ∧
    resolveMedProvider (some s) providerData = ([], .ok s) := by
  have h' : (s.length == 36) = true ∧ (s.toList.count '-' == 4) = true := by
    simpa [is_guid, Bool.and_eq_true] using h
  have hlen : s.length = 36 := by simpa using h'.1
  have hsne : s ≠ "" := by
    intro hs
    rw [hs] at hlen
    simp at hlen
  have hne : (s == "") = false := beq_eq_false_iff_ne.mpr hsne
  refine ⟨?_, ?_, ?_⟩
  · simp [resolveParticipantGuid, h]
  · simp [resolveSoapFacility, hne, h]
  · simp [resolveMedProvider, hne, h]

/-- Witness for the amended C3 at a concrete guid-shaped input. -/
theorem C3_short_circuit_amended_witness :
    resolveParticipantGuid "d744609f-1bab-4e11-89bd-680e8d19a397" [] =
      ([], .ok "d744609f-1bab-4e11-89bd-680e8d19a397") ∧
    resolveSoapFacility (some "d744609f-1bab-4e11-89bd-680e8d19a397") [] =
      ([], .ok "d744609f-1bab-4e11-89bd-680e8d19a397") ∧
    resolveMedProvider (some "d744609f-1bab-4e11-89bd-680e8d19a397") [] =
      ([], .ok "d744609f-1bab-4e11-89bd-680e8d19a397") :=
  C3_short_circuit_amended _ [] [] [] (by decide)

/-- Counterexample to claim C4: encounter-type resolution with zero
matches does not fail with a Not Found classification — it falls back to
the fixed default guid, and `create_soap_notes` proceeds to the dependent
create-transcript step. -/
theorem C4_not_found_counterexample :
    get_encounter_guid_from_display_name (some "Office Visit") [] =
      ([.encounterEventTypeList], defaultEncounterGuid) ∧
    create_soap_notes c4Req c4Env =
      ([.encounterEventTypeList,
        .createTranscript defaultEncounterGuid
          "cccccccc-cccc-cccc-cccc-cccccccccccc" defaultFacilityGuid],
       .ok "nt1") := by
  constructor <;> rfl

/-- Claim C4 as amended: a name resolution with zero matches fails with
status 404 and issues no dependent call for patients, facilities,
providers, drugs, and care-plan events; encounter-type resolution alone
never fails — with zero matches it falls back to the fixed default
encounter guid and the workflow proceeds. -/
theorem C4_not_found_amended (fn ln fname pname tg notes dn : String)
    (med : MedicationRequest) (rest : List MedicationRequest)
    (facilities : List Facility) (providerData : List Provider)
    (events : List EncEvent) (transcriptEvents : List TranscriptEvent)
    (env : Nat → MedStepEnv) (i : Nat) :
    (get_participant_guid_from_name fn ln [] =
      ([.patientSearch fn ln], .error ⟨404, .text "Patient not found."⟩)) ∧
    (facilities.find? (fun f => f.facilityName == fname) = none →
      get_facility_guid_from_name fname facilities =
        ([.facilityList], .error ⟨404, .text "Facility not found."⟩)) ∧
    ((pname == "") = false → is_guid pname = false →
      providerData.find? (fun p => p.providerName == pname) = none →
      resolveMedProvider (some pname) providerData =
        ([.providerList],
         .error ⟨404, .text ("Provider " ++ pname ++ " not found.")⟩)) ∧
    ((env i).drugSearchResult.find? (drugMatches med) = none →
      processMedsFrom env i (med :: rest) =
        ([.drugSearch med.searchCriteria],
         some ⟨404, .text ("No matching drug found for " ++ med.searchCriteria)⟩)) ∧
    (transcriptEvents.find? (fun e => e.eventTypeDisplayName == "Care plan") = none →
      update_care_plan_notes tg notes transcriptEvents =
        ([.transcriptEventsList tg],
         some ⟨404, .text "Care plan event not found."⟩)) ∧
    (events.find? (fun e => dn == e.displayName) = none →
      get_encounter_guid_from_display_name (some dn) events =
        ([.encounterEventTypeList], defaultEncounterGuid)) := by
  refine ⟨rfl, ?_, ?_, ?_, ?_, ?_⟩
  · intro h
    simp [get_facility_guid_from_name, h]
  · intro h1 h2 h3
    simp [resolveMedProvider, h1, h2, h3]
  · intro h
    simp [processMedsFrom, h]
  · intro h
    simp [update_care_plan_notes, h]
  · intro h
    simp [get_encounter_guid_from_display_name, h]

/-- Witness for the amended C4 at concrete zero-match collections. -/
theorem C4_not_found_amended_witness :
    get_participant_guid_from_name "Jane" "Doe" [] =
      ([.patientSearch "Jane" "Doe"], .error ⟨404, .text "Patient not found."⟩) ∧
    get_facility_guid_from_name "Main Clinic" [] =
      ([.facilityList], .error ⟨404, .text "Facility not found."⟩) ∧
    resolveMedProvider (some "Dr Who") [] =
      ([.providerList], .error ⟨404, .text "Provider Dr Who not found."⟩) ∧
    processMedsFrom (fun _ => ⟨[], ⟨[], [], []⟩, ""⟩) 0 [⟨"asp", "Aspirin"⟩] =
      ([.drugSearch "asp"], some ⟨404, .text "No matching drug found for asp"⟩) ∧
    update_care_plan_notes "tg1" "notes" [] =
      ([.transcriptEventsList "tg1"],
       some ⟨404, .text "Care plan event not found."⟩) ∧
    get_encounter_guid_from_display_name (some "Office Visit") [] =
      ([.encounterEventTypeList], defaultEncounterGuid) := by
  have h := C4_not_found_amended "Jane" "Doe" "Main Clinic" "Dr Who" "tg1" "notes"
    "Office Visit" ⟨"asp", "Aspirin"⟩ [] [] [] [] []
    (fun _ => ⟨[], ⟨[], [], []⟩, ""⟩) 0
  exact ⟨h.1, h.2.1 rfl, h.2.2.1 (by decide) (by decide) rfl, h.2.2.2.1 rfl,
    h.2.2.2.2.1 rfl, h.2.2.2.2.2 rfl⟩

/-- Helper: the rich-text wrapper never produces the empty string. -/
theorem richWrap_ne_empty (s : String) : (richWrap s == "") = false := by
  apply beq_eq_false_iff_ne.mpr
  intro h
  have hlen : (richWrap s).length = 0 := by rw [h]; rfl
  rw [richWrap, String.length_append, String.length_append] at hlen
  have h1 : ("<div class=\"pf-rich-text\"><p>" : String).length = 29 := rfl
  have h2 : ("</p></div>" : String).length = 10 := rfl
  omega

/-- Helper: a section entry with a non-blank value emits its field-patch
call. -/
theorem sectionEmit_some_of (f w : String) (hne : (w == "") = false) :
    sectionEmit (f, some w) = some (.patchTranscriptField f w) := by
  simp [sectionEmit, hne]

/-- Helper: inversion of `sectionEmit` — an emitted call carries the
entry's field name and its non-blank value. -/
theorem sectionEmit_eq_some (f : String) (v : Option String) (c : NetCall)
    (h : sectionEmit (f, v) = some c) :
    ∃ w, v = some w ∧ (w == "") = false ∧ c = .patchTranscriptField f w := by
  rcases v with _ | w
  · simp [sectionEmit] at h
  · cases hw : (w == "") with
    | true => simp [sectionEmit, hw] at h
    | false =>
      simp [sectionEmit, hw] at h
      exact ⟨w, rfl, hw, h.symm⟩

/-- Helper: inversion of the section loop — a field-patch call in its
output comes from a `soapFields` entry holding exactly that non-blank
value. -/
theorem soapSectionCalls_inv (req : PatientTranscriptRequest)
    (fname v : String)
    (hmem : NetCall.patchTranscriptField fname v ∈ soapSectionCalls req) :
    (fname, some v) ∈ soapFields req ∧ (v == "") = false := by
  obtain ⟨fv, hfv, hemit⟩ := List.mem_filterMap.mp hmem
  obtain ⟨a, b⟩ := fv
  obtain ⟨w, hw1, hw2, hw3⟩ := sectionEmit_eq_some a b _ hemit
  obtain ⟨hf, hv⟩ := NetCall.patchTranscriptField.injEq .. |>.mp hw3
  subst hf
  subst hv
  subst hw1
  exact ⟨hfv, hw2⟩

/-- Counterexample to claim C5: a non-blank chief complaint is
transmitted verbatim in its field-patch call, not wrapped in the
rich-text markup (the wrapper applied to it would be a different
string). -/
theorem C5_sections_counterexample :
    soapSectionCalls c5Req =
      [.patchTranscriptField "chiefComplaintNote" "headache"] ∧
    richWrap "headache" ≠ "headache" := by
  exact ⟨rfl, by decide⟩

/-- Claim C5 as amended: in the SOAP-note section loop, each of
subjective, objective, assessment and plan is, when non-blank, wrapped in
the fixed rich-text markup before transmission in its field-patch call;
the chief complaint, when non-blank, is transmitted verbatim without
wrapping; and any blank section issues no field-patch call at all. -/
theorem C5_sections_amended (req : PatientTranscriptRequest) :
    (∀ s, req.chiefComplaint = some s → (s == "") = false →
      NetCall.patchTranscriptField "chiefComplaintNote" s ∈ soapSectionCalls req) ∧
    (∀ s, req.subjectiveNote = some s → (s == "") = false →
      NetCall.patchTranscriptField "subjectiveNote" (richWrap s) ∈ soapSectionCalls req) ∧
    (∀ s, req.objectiveNote = some s → (s == "") = false →
      NetCall.patchTranscriptField "objectiveNote" (richWrap s) ∈ soapSectionCalls req) ∧
    (∀ s, req.assessmentNote = some s → (s == "") = false →
      NetCall.patchTranscriptField "assessmentNote" (richWrap s) ∈ soapSectionCalls req) ∧
    (∀ s, req.planNote = some s → (s == "") = false →
      NetCall.patchTranscriptField "planNote" (richWrap s) ∈ soapSectionCalls req) ∧
    ((req.chiefComplaint = none ∨ req.chiefComplaint = some "") →
      ∀ v, NetCall.patchTranscriptField "chiefComplaintNote" v ∉ soapSectionCalls req) ∧
    ((req.subjectiveNote = none ∨ req.subjectiveNote = some "") →
      ∀ v, NetCall.patchTranscriptField "subjectiveNote" v ∉ soapSectionCalls req) ∧
    ((req.objectiveNote = none ∨ req.objectiveNote = some "") →
      ∀ v, NetCall.patchTranscriptField "objectiveNote" v ∉ soapSectionCalls req) ∧
    ((req.assessmentNote = none ∨ req.assessmentNote = some "") →
      ∀ v, NetCall.patchTranscriptField "assessmentNote" v ∉ soapSectionCalls req) ∧
    ((req.planNote = none ∨ req.planNote = some "") →
      ∀ v, NetCall.patchTranscriptField "planNote" v ∉ soapSectionCalls req) := by
  refine ⟨?_, ?_, ?_, ?_, ?_, ?_, ?_, ?_, ?_, ?_⟩
  · intro s hs hne
    exact List.mem_filterMap.mpr ⟨("chiefComplaintNote", req.chiefComplaint),
      by simp [soapFields], by rw [hs]; exact sectionEmit_some_of _ _ hne⟩
  · intro s hs hne
    refine List.mem_filterMap.mpr ⟨("subjectiveNote", format_rich_text req.subjectiveNote),
      by simp [soapFields], ?_⟩
    rw [show format_rich_text req.subjectiveNote = some (richWrap s) by
      rw [hs]; simp [format_rich_text, hne]]
    exact sectionEmit_some_of _ _ (richWrap_ne_empty s)
  · intro s hs hne
    refine List.mem_filterMap.mpr ⟨("objectiveNote", format_rich_text req.objectiveNote),
      by simp [soapFields], ?_⟩
    rw [show format_rich_text req.objectiveNote = some (richWrap s) by
      rw [hs]; simp [format_rich_text, hne]]
    exact sectionEmit_some_of _ _ (richWrap_ne_empty s)
  · intro s hs hne
    refine List.mem_filterMap.mpr ⟨("assessmentNote", format_rich_text req.assessmentNote),
      by simp [soapFields], ?_⟩
    rw [show format_rich_text req.assessmentNote = some (richWrap s) by
      rw [hs]; simp [format_rich_text, hne]]
    exact sectionEmit_some_of _ _ (richWrap_ne_empty s)
  · intro s hs hne
    refine List.mem_filterMap.mpr ⟨("planNote", format_rich_text req.planNote),
      by simp [soapFields], ?_⟩
    rw [show format_rich_text req.planNote = some (richWrap s) by
      rw [hs]; simp [format_rich_text, hne]]
    exact sectionEmit_some_of _ _ (richWrap_ne_empty s)
  · intro hb v hmem
    obtain ⟨hpair, hvne⟩ := soapSectionCalls_inv req _ _ hmem
    simp [soapFields] at hpair
    rcases hb with hb | hb <;> rw [hb] at hpair
    · simp at hpair
    · simp at hpair
      rw [← hpair] at hvne
      simp at hvne
  · intro hb v hmem
    obtain ⟨hpair, hvne⟩ := soapSectionCalls_inv req _ _ hmem
    simp [soapFields] at hpair
    rcases hb with hb | hb <;> simp [format_rich_text, hb] at hpair
  · intro hb v hmem
    obtain ⟨hpair, hvne⟩ := soapSectionCalls_inv req _ _ hmem
    simp [soapFields] at hpair
    rcases hb with hb | hb <;> simp [format_rich_text, hb] at hpair
  · intro hb v hmem
    obtain ⟨hpair, hvne⟩ := soapSectionCalls_inv req _ _ hmem
    simp [soapFields] at hpair
    rcases hb with hb | hb <;> simp [format_rich_text, hb] at hpair
  · intro hb v hmem
    obtain ⟨hpair, hvne⟩ := soapSectionCalls_inv req _ _ hmem
    simp [soapFields] at hpair
    rcases hb with hb | hb <;> simp [format_rich_text, hb] at hpair

/-- Witness for the amended C5: a request with chief complaint "c0" and
subjective note "s0" patches the chief complaint verbatim and the
subjective note wrapped, and its blank objective section issues no
patch. -/
theorem C5_sections_amended_witness :
    NetCall.patchTranscriptField "chiefComplaintNote" "c0" ∈ soapSectionCalls c5ReqW ∧
    NetCall.patchTranscriptField "subjectiveNote" (richWrap "s0") ∈ soapSectionCalls c5ReqW ∧
    NetCall.patchTranscriptField "objectiveNote" "x" ∉ soapSectionCalls c5ReqW := by
  have h := C5_sections_amended c5ReqW
  exact ⟨h.1 "c0" rfl (by decide), h.2.1 "s0" rfl (by decide),
    h.2.2.2.2.2.2.2.1 (Or.inl rfl) "x"⟩

/-- Helper: the provider-resolution step of `create_appointment` emits at
most a provider-list call. -/
theorem resolveApptProvider_fst_cases (lmp : Option String)
    (pdata : List Provider) :
    (resolveApptProvider lmp pdata).fst = [] ∨
      (resolveApptProvider lmp pdata).fst = [.providerList] := by
  rcases lmp with _ | p
  · left; rfl
  · by_cases hp : (p == "") = true
    · left; simp [resolveApptProvider, hp]
    · right
      simp only [resolveApptProvider, Bool.not_eq_true] at hp ⊢
      rw [hp]
      rfl

/-- Helper: the facility-resolution step of `create_appointment` emits at
most a facility-list call. -/
theorem resolveApptFacility_fst_cases (fn : Option String)
    (fdata : List Facility) :
    (resolveApptFacility fn fdata).fst = [] ∨
      (resolveApptFacility fn fdata).fst = [.facilityList] := by
  rcases fn with _ | f
  · left; rfl
  · by_cases hf : (f == "") = true
    · left; simp [resolveApptFacility, hf]
    · right
      simp only [resolveApptFacility, Bool.not_eq_true] at hf ⊢
      rw [hf]
      rfl

/-- Helper: neither resolution step's trace contains a create-appointment
call. -/
theorem countP_create_zero_of_cases (l : List NetCall)
    (h : l = [] ∨ l = [.providerList] ∨ l = [.facilityList]) :
    l.countP isCreateAppointmentCall = 0 := by
  rcases h with h | h | h <;> subst h <;> rfl

/-- Claim C2: whenever the conflict check reports an existing overlap,
`create_appointment` raises a 400 Conflict Error and never issues the
create-appointment call; the conflict check queries the resolved provider
and facility over the interval from the start time to the resolved end
time, and in the no-conflict case the create call comes only after it. -/
theorem C2_conflict_abort (req : AppointmentRequest) (env : ApptEnv)
    (p0 : SchedParticipant) (ps : List SchedParticipant)
    (apptType : ApptType) (pat : Patient) (prest : List Patient)
    (pc fc : List NetCall) (pg fg prg : String)
    (hp : req.schedulerEventParticipants = p0 :: ps)
    (ht : env.appointmentTypes.find?
      (fun a => a.typeName == req.appointmentType) = some apptType)
    (hpat : env.patients = pat :: prest)
    (hprov : resolveApptProvider req.lastModifiedByProvider env.providerData =
      (pc, .ok pg))
    (hfac : resolveApptFacility req.facilityName env.facilityData =
      (fc, .ok (fg, prg))) :
    (env.conflictsExist = true →
      create_appointment req env =
        ([.appointmentTypesList, .patientSearch p0.firstName p0.lastName] ++
          pc ++ fc ++
          [.conflictsCheck pg fg req.startAtDateTimeUtc req.resolvedEndAt],
         .error ⟨400,
           .text "Conflicts exist with the selected time. Please select a different time."⟩) ∧
      (create_appointment req env).fst.countP isCreateAppointmentCall = 0) ∧
    (env.conflictsExist = false →
      create_appointment req env =
        ([.appointmentTypesList, .patientSearch p0.firstName p0.lastName] ++
          pc ++ fc ++
          [.conflictsCheck pg fg req.startAtDateTimeUtc req.resolvedEndAt,
           .createAppointment prg apptType.typeId pat.patientPracticeGuid pg fg
             req.startAtDateTimeUtc req.resolvedEndAt],
         .ok ())) := by
  have hpc : pc = (resolveApptProvider req.lastModifiedByProvider env.providerData).fst := by
    rw [hprov]
  have hfc : fc = (resolveApptFacility req.facilityName env.facilityData).fst := by
    rw [hfac]
  constructor
  · intro hc
    have heq : create_appointment req env =
        ([.appointmentTypesList, .patientSearch p0.firstName p0.lastName] ++
          pc ++ fc ++
          [.conflictsCheck pg fg req.startAtDateTimeUtc req.resolvedEndAt],
         .error ⟨400,
           .text "Conflicts exist with the selected time. Please select a different time."⟩) := by
      simp [create_appointment, hp, ht, hpat, hprov, hfac, check_for_conflicts, hc]
    refine ⟨heq, ?_⟩
    rw [heq]
    simp only [List.countP_append]
    have h1 : pc.countP isCreateAppointmentCall = 0 := by
      rw [hpc]
      rcases resolveApptProvider_fst_cases req.lastModifiedByProvider env.providerData with
        h | h <;> rw [h] <;> rfl
    have h2 : fc.countP isCreateAppointmentCall = 0 := by
      rw [hfc]
      rcases resolveApptFacility_fst_cases req.facilityName env.facilityData with
        h | h <;> rw [h] <;> rfl
    simp [h1, h2, List.countP_cons, isCreateAppointmentCall]
  · intro hc
    simp [create_appointment, hp, ht, hpat, hprov, hfac, check_for_conflicts, hc]

/-- Witness for C2: a concrete request whose conflict check reports an
overlap aborts with the 400 Conflict Error, issues no create call, and
queried the default provider and facility over minutes 600–630. -/
theorem C2_conflict_abort_witness :
    create_appointment c2Req c2Env =
      ([.appointmentTypesList, .patientSearch "Jane" "Doe",
        .conflictsCheck defaultProviderGuid defaultFacilityGuid 600 630],
       .error ⟨400,
         .text "Conflicts exist with the selected time. Please select a different time."⟩) ∧
    (create_appointment c2Req c2Env).fst.countP isCreateAppointmentCall = 0 := by
  have h := (C2_conflict_abort c2Req c2Env ⟨"checkup", "Jane", "Doe"⟩ []
    ⟨"Wellness Exam", "t1"⟩ ⟨"p1"⟩ [] [] [] defaultProviderGuid
    defaultFacilityGuid defaultPracticeGuid rfl rfl rfl rfl rfl).1 rfl
  constructor
  · rw [h.1]
    rfl
  · exact h.2

/-- Helper: running the medication loop on an appended list first runs
the prefix; when the prefix raises nothing, the tail runs from the next
index and its calls are appended. -/
theorem processMedsFrom_append (env : Nat → MedStepEnv)
    (pre rest : List MedicationRequest) (i : Nat)
    (h : (processMedsFrom env i pre).snd = none) :
    processMedsFrom env i (pre ++ rest) =
      ((processMedsFrom env i pre).fst ++
        (processMedsFrom env (i + pre.length) rest).fst,
       (processMedsFrom env (i + pre.length) rest).snd) := by
  induction pre generalizing i with
  | nil =>
    simp [processMedsFrom]
  | cons med pre ih =>
    rw [List.cons_append]
    simp only [processMedsFrom] at h ⊢
    cases hfind : (env i).drugSearchResult.find? (drugMatches med) with
    | none =>
      rw [hfind] at h
      simp at h
    | some d =>
      rw [hfind] at h
      dsimp only at h ⊢
      by_cases halert : anyAlerts (env i).interaction = true
      · rw [if_pos halert] at h
        simp at h
      · simp only [if_neg halert] at h ⊢
        rw [ih (i + 1) h]
        simp only [List.length_cons]
        have hidx : i + 1 + pre.length = i + (pre.length + 1) := by omega
        rw [hidx]
        simp [List.append_assoc]

/-- Claim C1: in `process_medications`, when the workflow reaches a
medication (provider resolution and all earlier medications having
passed) whose interaction screen reports a non-empty value in any of the
three alert categories, it raises the 400 Safety Block Error whose detail
carries all three alert lists verbatim; the trace ends at that
medication's interaction check, so no add-medication call is made for it
and no later medication in the list is processed. -/
theorem C1_safety_block (pre post : List MedicationRequest)
    (med : MedicationRequest) (providerNameOrGuid : Option String)
    (providerData : List Provider) (env : Nat → MedStepEnv)
    (pc : List NetCall) (pg : String) (d : Drug)
    (hprov : resolveMedProvider providerNameOrGuid providerData = (pc, .ok pg))
    (hpre : (processMedsFrom env 0 pre).snd = none)
    (hfind : (env pre.length).drugSearchResult.find? (drugMatches med) = some d)
    (halert : anyAlerts (env pre.length).interaction = true) :
    process_medications (pre ++ med :: post) providerNameOrGuid providerData env =
      (pc ++ (processMedsFrom env 0 pre).fst ++
        [.drugSearch med.searchCriteria, .interactionCheck d.drugName],
       some (safetyBlockError d.drugName (env pre.length).interaction)) ∧
    (safetyBlockError d.drugName (env pre.length).interaction).status = 400 ∧
    (safetyBlockError d.drugName (env pre.length).interaction).detail =
      .safety
        ("Potential drug interactions or allergies detected between patient and drug:"
          ++ d.drugName ++ ".")
        (env pre.length).interaction.drugInteractionAlerts
        (env pre.length).interaction.drugAllergyAlerts
        (env pre.length).interaction.drugAlertErrors := by
  refine ⟨?_, rfl, rfl⟩
  unfold process_medications
  rw [hprov]
  simp only
  rw [processMedsFrom_append env pre (med :: post) 0 hpre]
  have h0 : 0 + pre.length = pre.length := by omega
  rw [h0]
  simp only [processMedsFrom]
  rw [hfind]
  dsimp only
  rw [if_pos halert]
  simp [List.append_assoc]

/-- Witness for C1: with an empty passed prefix, a medication whose
screen reports an allergy alert raises the safety block, and neither its
add-medication call nor the following medication's drug search appears in
the trace. -/
theorem C1_safety_block_witness :
    process_medications [⟨"asp", "Aspirin"⟩, ⟨"ib", "Ibuprofen"⟩] none [] c1EnvFun =
      ([.drugSearch "asp", .interactionCheck "Aspirin"],
       some (safetyBlockError "Aspirin" c1Interaction)) ∧
    (safetyBlockError "Aspirin" c1Interaction).status = 400 ∧
    (safetyBlockError "Aspirin" c1Interaction).detail =
      .safety
        "Potential drug interactions or allergies detected between patient and drug:Aspirin."
        [] ["allergy-alert-1"] [] := by
  have hm : drugMatches ⟨"asp", "Aspirin"⟩ c1Drug = true := by
    simp [drugMatches, c1Drug]
  have hfind : (c1EnvFun 0).drugSearchResult.find?
      (drugMatches ⟨"asp", "Aspirin"⟩) = some c1Drug := by
    show List.find? (drugMatches ⟨"asp", "Aspirin"⟩) [c1Drug] = some c1Drug
    rw [List.find?_cons_of_pos _ hm]
  have h := C1_safety_block [] [⟨"ib", "Ibuprofen"⟩] ⟨"asp", "Aspirin"⟩ none []
    c1EnvFun [] defaultProviderGuid c1Drug rfl rfl hfind (by decide)
  refine ⟨?_, rfl, rfl⟩
  have h1 := h.1
  simpa [c1EnvFun] using h1

end PF
